import Mathlib

/-!
Verification development for the `datagen.py` random tabular data generator
(class `DataGen`).  The Python 2 source is shallowly embedded below:

* pure helpers (`pyInt`, size-string parsing, the rounding to the nearest
  multiple of ten, the file-count resolution, the constraint-override
  processing) become Lean functions;
* the stateful `__init__` / `check_storage` pipeline becomes an explicit
  `Except`-valued function over an `Args` record (command-line values) plus
  environment parameters (free disk space, writability, a random oracle);
* the `write2file` streaming loops become `Except`/fuel-based loop functions
  whose observable result is the number of rows (count mode) or the on-disk
  byte size (size mode) of the produced file;
* the per-type generation expressions of `DataGen.FUNC` relevant to the
  claims (DECIMAL, TIMESTAMP) are embedded as functions of the random draws.

Machine integers do not overflow in Python, so `Nat`/`Int`/`ℚ` are used
directly.  Python 2 `int` division on nonnegative operands is `Nat` division.
-/

/-- Exceptions the embedded code can raise.  `attributeError` models a Python
`AttributeError` (reading an attribute that no code path ever assigned). -/
inductive PyErr
  | attributeError
  | invalidSizeUnit
  | invalidSizePattern
  | insufficientSpace
  | permissionDenied
  deriving Repr, DecidableEq

/-- A decimal digit character. -/
def isDig (c : Char) : Bool := '0' ≤ c && c ≤ '9'

/-- All characters are decimal digits. -/
def allDigits (cs : List Char) : Bool := cs.all isDig

/-- Base-10 value of a digit list (most significant first), as produced by
Python `int` on a digit string. -/
def digitsVal (cs : List Char) : Nat :=
  cs.foldl (fun a c => a * 10 + (c.toNat - 48)) 0

/-- The whitespace characters Python 2 `int` strips from both ends of its
string argument (the characters `str.isspace` accepts). -/
def isPySpace (c : Char) : Bool :=
  c = ' ' || c = '\t' || c = '\n' || c = '\x0b' || c = '\x0c' || c = '\r'

/-- Strip leading and trailing whitespace, as Python 2 `int` does before
parsing its argument. -/
def stripSpaces (cs : List Char) : List Char :=
  ((cs.dropWhile isPySpace).reverse.dropWhile isPySpace).reverse

/-- The core of Python 2 `int(s)` after whitespace stripping: an optional
single sign followed by a nonempty run of decimal digits; anything else
raises `ValueError` (`none`). -/
def pyIntNoWS : List Char → Option Int
  | [] => none
  | c :: rest =>
    if c = '+' then
      if rest ≠ [] ∧ allDigits rest then some (digitsVal rest) else none
    else if c = '-' then
      if rest ≠ [] ∧ allDigits rest then some (-(digitsVal rest : Int)) else none
    else if allDigits (c :: rest) then some (digitsVal (c :: rest)) else none

/-- Python 2 `int(s)` on a character list: leading and trailing whitespace
is ignored, then an optional single sign and a nonempty digit run. -/
def pyIntAux (cs : List Char) : Option Int := pyIntNoWS (stripSpaces cs)

/-- Python 2 `int` on a `String`. -/
def pyInt (s : String) : Option Int := pyIntAux s.data

/-- `int(round(n, -1))` of Python 2 on an integer, modelled as exact
rounding to the nearest multiple of 10, halves away from zero (source line
78).  The source coerces the value through a C double (`round` converts its
argument with `float`, divides by 10, adds 0.5, floors, multiplies by 10).
For `|n| ≤ 2^51` every step of that computation agrees with this exact
model: the int-to-float conversion is exact below `2^53`; the division
`n/10` either has an exactly representable half-integer value (when
`n % 10 = 5`, since `k + 0.5` is representable for `k < 2^52`) or lies at
least `0.1` minus a far smaller rounding error away from the next
`floor`-boundary; and the final multiplication by 10 and int conversion are
exact below `2^52`.  Beyond `2^53` the float detour rounds inexactly, and
for astronomically large values `float` raises `OverflowError`; the theorem
about size parsing therefore carries a `≤ 2^51` magnitude bound on the
resolved value. -/
def roundTo10 (n : Int) : Int :=
  if 0 ≤ n then ((n.toNat + 5) / 10 * 10 : Nat)
  else -(((-n).toNat + 5) / 10 * 10 : Nat)

/-- Size-string resolution of `DataGen.__init__` (source lines 56-78), on the
character list of the argument: try `int` on the whole string; on failure
split off the last character, `int` the rest, uppercase the unit and multiply
by the power of 1024 it selects; unknown units and unparsable prefixes raise.
The final rounding to the nearest multiple of 10 is applied on every
successful path. -/
def parseSizeL (cs : List Char) : Except PyErr Int :=
  match pyIntAux cs with
  | some n => .ok (roundTo10 n)
  | none =>
    match pyIntAux cs.dropLast with
    | none => .error .invalidSizePattern
    | some m =>
      match cs.getLast? with
      | none => .error .invalidSizePattern
      | some c =>
        match c.toUpper with
        | 'K' => .ok (roundTo10 (m * 1024))
        | 'M' => .ok (roundTo10 (m * 1024 ^ 2))
        | 'G' => .ok (roundTo10 (m * 1024 ^ 3))
        | 'T' => .ok (roundTo10 (m * 1024 ^ 4))
        | _ => .error .invalidSizeUnit

/-- Size-string resolution on a `String`. -/
def parseSize (s : String) : Except PyErr Int := parseSizeL s.data

/-- `DataGen.ALLOWED_TYPES` (source lines 19-22). -/
def ALLOWED_TYPES : List String :=
  ["TINYINT", "SMALLINT", "INT", "BIGINT",
   "FLOAT", "DOUBLE", "DECIMAL",
   "VARCHAR", "TEXT",
   "DATE", "TIMESTAMP"]

/-- `DataGen.SIZE_PER_FILE` (source line 23): 10 MiB. -/
def SIZE_PER_FILE : Nat := 10 * 1024 * 1024

/-- `DataGen.CONSTRAINTS` (source lines 24-34), given as a typed record: the
dictionary's fixed keys become fields; keys added later by
`update_constraints` that are not among the defaults land in `extra`
(most recent binding first, as a dictionary overlay). -/
structure Constraints where
  DECIMAL_PRECISION : Int
  DECIMAL_SCALE : Int
  VARCHAR_MIN : Int
  VARCHAR_MAX : Int
  TEXT_MIN : Int
  TEXT_MAX : Int
  DAYS_AGO : Int
  DATE_FORMAT : String
  TIMESTAMP_FORMAT : String
  extra : List (String × Int)
  deriving Repr, DecidableEq

/-- The default constraint values of `DataGen.CONSTRAINTS`. -/
def defaultConstraints : Constraints :=
  { DECIMAL_PRECISION := 5
    DECIMAL_SCALE := 2
    VARCHAR_MIN := 6
    VARCHAR_MAX := 20
    TEXT_MIN := 21
    TEXT_MAX := 99
    DAYS_AGO := 1095
    DATE_FORMAT := "%Y-%m-%d"
    TIMESTAMP_FORMAT := "%Y-%m-%d %H:%M:%S"
    extra := [] }

/-- Python `str.upper()` on ASCII keys, as a plain character map (kept
definitionally transparent so that concrete updates evaluate). -/
def strUpper (s : String) : String := ⟨s.data.map Char.toUpper⟩

/-- One pass of the `update_constraints` loop body (source lines 131-146) for
a single `(key, value)` pair: format keys skip `integerize` and every check;
all other values must parse as integers; the three max-side keys
(`DECIMAL_PRECISION`, `TEXT_MAX`, `VARCHAR_MAX`) are checked with a STRICT
`<` against the current min-side value; every surviving pair is stored under
the uppercased key. -/
def applyOverride (c : Constraints) (kv : String × String) : Except String Constraints :=
  let K := strUpper kv.1
  if K = "DATE_FORMAT" then .ok { c with DATE_FORMAT := kv.2 }
  else if K = "TIMESTAMP_FORMAT" then .ok { c with TIMESTAMP_FORMAT := kv.2 }
  else
    match pyInt kv.2 with
    | none => .error (kv.1 ++ " must be an integer")
    | some v =>
      if K = "DECIMAL_PRECISION" then
        if v < c.DECIMAL_SCALE then
          .error "DECIMAL_PRECISION constraint cannot be less than or equal to DECIMAL_SCALE"
        else .ok { c with DECIMAL_PRECISION := v }
      else if K = "TEXT_MAX" then
        if v < c.TEXT_MIN then
          .error "TEXT_MAX constraint cannot be less than or equal to TEXT_MIN"
        else .ok { c with TEXT_MAX := v }
      else if K = "VARCHAR_MAX" then
        if v < c.VARCHAR_MIN then
          .error "VARCHAR_MAX constraint cannot be less than or equal to VARCHAR_MIN"
        else .ok { c with VARCHAR_MAX := v }
      else if K = "DECIMAL_SCALE" then .ok { c with DECIMAL_SCALE := v }
      else if K = "VARCHAR_MIN" then .ok { c with VARCHAR_MIN := v }
      else if K = "TEXT_MIN" then .ok { c with TEXT_MIN := v }
      else if K = "DAYS_AGO" then .ok { c with DAYS_AGO := v }
      else .ok { c with extra := (K, v) :: c.extra }

/-- Strict lexicographic order on character lists: Python's ordering of the
(ASCII) dictionary keys. -/
def listCharLt : List Char → List Char → Bool
  | [], [] => false
  | [], _ :: _ => true
  | _ :: _, [] => false
  | a :: as, b :: bs => if a < b then true else if b < a then false else listCharLt as bs

/-- Insertion step for sorting key/value pairs by key in descending order,
modelling `sorted(constraints.items(), key=itemgetter(0), reverse=True)`
(stable; dictionary keys are distinct so ties cannot arise). -/
def insertDescBy (p : String × String) : List (String × String) → List (String × String)
  | [] => [p]
  | q :: qs => if listCharLt q.1.data p.1.data then p :: q :: qs else q :: insertDescBy p qs

/-- Sort an override mapping by key, descending. -/
def sortDescByKey (l : List (String × String)) : List (String × String) :=
  l.foldr insertDescBy []

/-- `DataGen.update_constraints` (source lines 123-146): process the override
pairs in descending key order, validating and storing each. -/
def update_constraints (c : Constraints) (overrides : List (String × String)) :
    Except String Constraints :=
  (sortDescByKey overrides).foldlM applyOverride c

/-- File-count auto-resolution of `DataGen.__init__` (source lines 82-88),
as run when the user did not supply a (truthy) `--files` value: start from
the record-count rule, then, in size mode, overwrite with the size rule.
`size` is the resolved byte size clamped at zero (`Int.toNat`); a negative
resolved size takes the `else 1` branch exactly as in Python. -/
def autoNumFiles (use_size : Bool) (num_records size : Nat) : Nat :=
  let nf := if 100000 < num_records then num_records / 100000 else 1
  if use_size then (if SIZE_PER_FILE < size then size / SIZE_PER_FILE else 1) else nf

/-- The resolved file count: `args.NUM_FILES` when truthy (Python treats the
value `0` as falsy), otherwise the auto-resolution. -/
def resolvedNumFiles (requested : Option Nat) (use_size : Bool) (num_records size : Nat) : Nat :=
  match requested with
  | some f => if f = 0 then autoNumFiles use_size num_records size else f
  | none => autoNumFiles use_size num_records size

/-- The per-file quota of `DataGen.generate` (source lines 195-198):
`int(target / num_files)`, i.e. floor division of the active-mode target. -/
def maxPerFile (use_size : Bool) (size num_records num_files : Nat) : Nat :=
  if use_size then size / num_files else num_records / num_files

/-- `DataGen.get_fieldlist` (source lines 148-149): one uniformly random
`ALLOWED_TYPES` entry per column.  `rand i` is the oracle for the i-th
`randint(0, len(ALLOWED_TYPES) - 1)` draw, reduced into range. -/
def get_fieldlist (num_columns : Nat) (rand : Nat → Nat) : List String :=
  (List.range num_columns).map
    (fun i => ALLOWED_TYPES.getD (rand i % ALLOWED_TYPES.length) "INT")

/-- The command-line values consumed by `DataGen.__init__` (the `args`
namespace).  `TARGET_PATH`, `FILE_PREFIX` and `FILE_SUFFIX` only influence
file naming, which no claim concerns, and are omitted. -/
structure Args where
  DELIMITER : String
  NUM_RECORDS : Nat
  SIZE : Option String
  NUM_COLUMNS : Nat
  NUM_FILES : Option Nat
  compress : Bool
  NUM_THREADS : Option Nat
  deriving Repr, DecidableEq

/-- The instance attributes a successfully constructed `DataGen` holds.
`size` is `none` exactly when the attribute `self.size` was never assigned
(record-count mode); likewise `thread_count`.  `FIELDLIST` is the attribute
read by `write2file` (source line 157): NO code path ever assigns it (the
schema is stored in `field_list`, line 103), so it is `none` in every state
`__init__` can build. -/
structure DGState where
  delimiter : String
  num_records : Nat
  use_size : Bool
  size : Option Int
  num_columns : Nat
  num_files : Nat
  compression_enabled : Bool
  concurrency_enabled : Bool
  thread_count : Option Nat
  headers : List String
  field_list : List String
  FIELDLIST : Option (List String)
  deriving Repr, DecidableEq

/-- `DataGen.check_storage` (source lines 106-121): compare `self.size`
against the free space, then probe writability.  Reading `self.size` is
unconditional; when the attribute was never assigned this is a Python
`AttributeError`.  `free_space` and `writable` abstract the filesystem. -/
def check_storage (size : Option Int) (free_space : Int) (writable : Bool) :
    Except PyErr Unit :=
  match size with
  | none => .error .attributeError
  | some s =>
    if free_space < s then .error .insufficientSpace
    else if writable then .ok () else .error .permissionDenied

/-- The `self.size`/`self.use_size` assignment block of `__init__` (source
lines 54-78): `if args.SIZE:` is false for `None` and for the empty string;
otherwise the size string is parsed and rounded. -/
def resolveSize (SIZE : Option String) : Except PyErr (Option Int) :=
  match SIZE with
  | none => .ok none
  | some s => if s = "" then .ok none else (parseSize s).map some

/-- `DataGen.__init__` (source lines 50-104), in source order: delimiter
normalisation, size resolution, file-count resolution, compression and
concurrency flags, header and schema construction, then `check_storage`.
Any raised exception aborts construction. -/
def initDataGen (args : Args) (rand : Nat → Nat) (free_space : Int) (writable : Bool) :
    Except PyErr DGState :=
  match resolveSize args.SIZE with
  | .error e => .error e
  | .ok sizeInfo =>
    let delimiter := if args.DELIMITER = "t" then "\t" else args.DELIMITER
    let use_size := sizeInfo.isSome
    let num_files :=
      resolvedNumFiles args.NUM_FILES use_size args.NUM_RECORDS ((sizeInfo.getD 0).toNat)
    let thread_count : Option Nat :=
      match args.NUM_THREADS with
      | none => none
      | some t => if t = 0 then none else some t
    match check_storage sizeInfo free_space writable with
    | .error e => .error e
    | .ok _ =>
      .ok { delimiter := delimiter
            num_records := args.NUM_RECORDS
            use_size := use_size
            size := sizeInfo
            num_columns := args.NUM_COLUMNS
            num_files := num_files
            compression_enabled := args.compress
            concurrency_enabled := thread_count.isSome
            thread_count := thread_count
            headers := (List.range args.NUM_COLUMNS).map (fun n => "field" ++ toString (n + 1))
            field_list := get_fieldlist args.NUM_COLUMNS rand
            FIELDLIST := none }

/-- A constant random oracle, for concrete witnesses. -/
def zeroOracle : Nat → Nat := fun _ => 0

/-- Concrete size-mode arguments for witnesses. -/
def argsSizeEx : Args :=
  { DELIMITER := ",", NUM_RECORDS := 1000, SIZE := some "1K", NUM_COLUMNS := 2,
    NUM_FILES := none, compress := false, NUM_THREADS := none }

/-- Concrete record-count-mode arguments for witnesses. -/
def argsCountEx : Args :=
  { DELIMITER := ",", NUM_RECORDS := 2500, SIZE := none, NUM_COLUMNS := 2,
    NUM_FILES := some 3, compress := false, NUM_THREADS := none }

/-- The state `__init__` builds from `argsSizeEx`. -/
def stSizeEx : DGState :=
  { delimiter := ",", num_records := 1000, use_size := true, size := some 1020,
    num_columns := 2, num_files := 1, compression_enabled := false,
    concurrency_enabled := false, thread_count := none,
    headers := ["field1", "field2"], field_list := ["TINYINT", "TINYINT"],
    FIELDLIST := none }

/-- The inner `writer(nrows)` of `write2file` (source lines 154-164), reduced
to its control effect: the row-construction loop runs `nrows` times and each
iteration reads `self.FIELDLIST`; if the attribute is unset the FIRST
iteration raises `AttributeError` (so a call with `nrows = 0` builds no row,
reads nothing, and succeeds).  With the attribute set, all rows are built
(every `field_list` entry is an `ALLOWED_TYPES` member, hence a `FUNC` key)
and the batch is appended to the file. -/
def writerE (FIELDLIST : Option (List String)) (nrows : Nat) : Except PyErr Unit :=
  if nrows = 0 then .ok ()
  else
    match FIELDLIST with
    | none => .error .attributeError
    | some _ => .ok ()

/-- The record-count branch of `write2file` (source lines 178-185), with an
explicit iteration bound (first argument) for structural recursion: while the
remaining quota is nonzero, write a full 100000-row batch if more than that
remains, else one final batch of exactly the remainder.  The result is the
number of rows written to the file.  Each iteration strictly shrinks the
quota by 100000, so `quota / 100000 + 1` iterations always suffice; the
fuel-exhausted value `.ok 0` is never reached from `write2file_count`. -/
def write2file_count_go (FIELDLIST : Option (List String)) :
    Nat → Nat → Except PyErr Nat
  | 0, _ => .ok 0
  | fuel + 1, max_per_file =>
    if max_per_file = 0 then .ok 0
    else if 100000 < max_per_file then
      match writerE FIELDLIST 100000 with
      | .error e => .error e
      | .ok _ =>
        match write2file_count_go FIELDLIST fuel (max_per_file - 100000) with
        | .error e => .error e
        | .ok m => .ok (100000 + m)
    else
      match writerE FIELDLIST max_per_file with
      | .error e => .error e
      | .ok _ => .ok max_per_file

/-- The record-count branch of `write2file`, run to completion. -/
def write2file_count (FIELDLIST : Option (List String)) (max_per_file : Nat) :
    Except PyErr Nat :=
  write2file_count_go FIELDLIST (max_per_file / 100000 + 1) max_per_file

/-- The size branch of `write2file` (source lines 166-177): write one full
100000-row batch, then compare the on-disk file size with the quota; stop as
soon as it reaches the quota.  `batch k` is the byte size the (k+1)-th batch
appends (each real batch appends 100000 serialized rows, so at least 200000
bytes — every row contributes at least a line terminator).  `fuel` bounds
the number of iterations modelled; `none` means the loop was still running
when the fuel ran out.  The result is the final on-disk size. -/
def write2file_size (FIELDLIST : Option (List String)) (batch : Nat → Nat)
    (max_per_file : Nat) : Nat → Nat → Nat → Option (Except PyErr Nat)
  | 0, _, _ => none
  | fuel + 1, k, fsize =>
    match writerE FIELDLIST 100000 with
    | .error e => some (.error e)
    | .ok _ =>
      let fsize2 := fsize + batch k
      if max_per_file ≤ fsize2 then some (.ok fsize2)
      else write2file_size FIELDLIST batch max_per_file fuel (k + 1) fsize2

/-- `DataGen.write2file` (source lines 151-185): dispatch on `use_size`.
In count mode the loop needs no fuel and no byte oracle. -/
def write2file (FIELDLIST : Option (List String)) (use_size : Bool)
    (batch : Nat → Nat) (max_per_file fuel : Nat) : Option (Except PyErr Nat) :=
  if use_size then write2file_size FIELDLIST batch max_per_file fuel 0 0
  else some (write2file_count FIELDLIST max_per_file)

/-- The sequential loop of `DataGen.generate` in count mode (source lines
217-220), one `write2file` call per output file, accumulating the rows
written.  (The threaded branch, lines 200-216, runs `write2file` once for
exactly the same file set and quota, so the total is the same.) -/
def generate_count_go (fl : List String) (q : Nat) : List Nat → Nat → Except PyErr Nat
  | [], acc => .ok acc
  | _ :: fs, acc =>
    match write2file_count (some fl) q with
    | .error e => .error e
    | .ok n => generate_count_go fl q fs (acc + n)

/-- Total rows written by `generate` in count mode with schema `fl`:
`num_files` files, each with quota `int(num_records / num_files)`
(source line 198). -/
def generate_count_total (fl : List String) (records num_files : Nat) :
    Except PyErr Nat :=
  generate_count_go fl (records / num_files) (List.range num_files) 0

/-- The sequential loop of `generate` in size mode, one `write2file` call per
file; `batches f k` is the byte size of the (k+1)-th batch of file `f`. -/
def generate_size_go (fl : List String) (q fuel : Nat) (batches : Nat → Nat → Nat) :
    List Nat → Nat → Option (Except PyErr Nat)
  | [], acc => some (.ok acc)
  | f :: fs, acc =>
    match write2file_size (some fl) (batches f) q fuel 0 0 with
    | none => none
    | some (.error e) => some (.error e)
    | some (.ok b) => generate_size_go fl q fuel batches fs (acc + b)

/-- Total bytes written by `generate` in size mode: `num_files` files, each
with quota `int(size / num_files)` (source line 196). -/
def generate_size_total (fl : List String) (size num_files fuel : Nat)
    (batches : Nat → Nat → Nat) : Option (Except PyErr Nat) :=
  generate_size_go fl (size / num_files) fuel batches (List.range num_files) 0

/-- Constant batch-size trace: every batch of every file appends 333336
bytes (realizable, e.g. 100000 one-column TINYINT rows: 66664 rows of 3
bytes and 33336 rows of 4 bytes, values below resp. above 10). -/
def constBatch333336 : Nat → Nat → Nat := fun _ _ => 333336

/-- Lower endpoint of the `uniform` call in `DataGen.FUNC['DECIMAL']`
(source line 43): `int('1' + '0' * (P - S - 1)) = 10 ^ (P - S - 1)`. -/
def DECIMAL_lower (P S : Nat) : Nat := 10 ^ (P - S - 1)

/-- Upper endpoint of the `uniform` call in `DataGen.FUNC['DECIMAL']`:
`int('1' + '0' * (P - S)) - 1 = 10 ^ (P - S) - 1`. -/
def DECIMAL_upper (P S : Nat) : Nat := 10 ^ (P - S) - 1

/-- The value printed by `format(x, '.Sf')` for a nonnegative real `x`,
represented as the integer of its digit string with the decimal point
removed, i.e. `x` rounded to `S` fractional digits and scaled by `10^S`.
(Python rounds ties to even; `round` here rounds ties up.  The two agree
except exactly at ties, and every theorem below is insensitive to the tie
direction since both candidates lie between the floor and the ceiling.) -/
def decimalScaled (S : Nat) (x : ℚ) : ℤ := round (x * (10 : ℚ) ^ S)

/-- The digits printed after the decimal point by `format(x, '.Sf')`
(least significant first): exactly `S` of them, by construction of the
format. -/
def decimalFracDigits (S : Nat) (x : ℚ) : List ℕ :=
  (List.range S).map (fun i => (decimalScaled S x).toNat / 10 ^ i % 10)

/-- The digits printed before the decimal point by `format(x, '.Sf')` for a
nonnegative `x` (base-10 digits of the scaled value with the fractional part
stripped). -/
def decimalIntDigits (S : Nat) (x : ℚ) : List ℕ :=
  Nat.digits 10 ((decimalScaled S x).toNat / 10 ^ S)

/-- Seconds subtracted by `DataGen.FUNC['TIMESTAMP']` (source line 47):
`timedelta(days=d, hours=h, minutes=m, seconds=s)`. -/
def timestampOffset (d h m s : Nat) : Nat :=
  d * 86400 + h * 3600 + m * 60 + s

/-- The generated TIMESTAMP as seconds on the arithmetic timeline:
`datetime.now() - timedelta(...)` with `now` in seconds. -/
def timestampValue (now : ℤ) (d h m s : Nat) : ℤ :=
  now - timestampOffset d h m s

/-- The ranges of the four `randint` draws of `FUNC['TIMESTAMP']`:
`days=randint(1, DAYS_AGO), hours=randint(1, 23), minutes=randint(1, 59),
seconds=randint(1, 59)`. -/
def validTimestampDraw (days_ago d h m s : Nat) : Prop :=
  1 ≤ d ∧ d ≤ days_ago ∧ 1 ≤ h ∧ h ≤ 23 ∧ 1 ≤ m ∧ m ≤ 59 ∧ 1 ≤ s ∧ s ≤ 59

instance (days_ago d h m s : Nat) : Decidable (validTimestampDraw days_ago d h m s) := by
  unfold validTimestampDraw
  infer_instance

/-! ### Helper lemmas -/

/-- A decimal digit is not one of the whitespace characters `int` strips. -/
theorem not_space_of_digit {c : Char} (h : isDig c = true) : isPySpace c = false := by
  by_contra hc
  rw [Bool.not_eq_false] at hc
  simp only [isPySpace, Bool.or_eq_true, decide_eq_true_eq] at hc
  rcases hc with ((((hc | hc) | hc) | hc) | hc) | hc <;> subst hc <;>
    exact absurd h (by decide)

/-- Stripping whitespace does nothing to a list that starts with a digit. -/
theorem dropWhile_space_digits {cs : List Char} (hd : allDigits cs = true) :
    cs.dropWhile isPySpace = cs := by
  cases cs with
  | nil => rfl
  | cons c rest =>
    have hc : isDig c = true := List.all_eq_true.mp hd c (List.mem_cons_self c rest)
    rw [List.dropWhile_cons, not_space_of_digit hc]
    simp

/-- Stripping whitespace does nothing to an all-digit list. -/
theorem stripSpaces_digits {cs : List Char} (hd : allDigits cs = true) :
    stripSpaces cs = cs := by
  have hdr : allDigits cs.reverse = true := by
    unfold allDigits at hd ⊢
    rw [List.all_reverse]
    exact hd
  unfold stripSpaces
  rw [dropWhile_space_digits hd, dropWhile_space_digits hdr, List.reverse_reverse]

/-- Stripping whitespace does nothing to a digit run followed by a non-space
character. -/
theorem stripSpaces_digits_append {ds : List Char} {u : Char} (hne : ds ≠ [])
    (hd : allDigits ds = true) (hs : isPySpace u = false) :
    stripSpaces (ds ++ [u]) = ds ++ [u] := by
  unfold stripSpaces
  have h1 : (ds ++ [u]).dropWhile isPySpace = ds ++ [u] := by
    cases ds with
    | nil => exact absurd rfl hne
    | cons c rest =>
      have hc : isDig c = true := List.all_eq_true.mp hd c (List.mem_cons_self c rest)
      rw [List.cons_append, List.dropWhile_cons, not_space_of_digit hc]
      simp
  have h2 : (ds ++ [u]).reverse = u :: ds.reverse := by simp
  rw [h1, h2, List.dropWhile_cons, hs]
  simp

/-- The `int` core succeeds on any nonempty all-digit string and returns its
base-10 value. -/
theorem pyIntNoWS_digits {cs : List Char} (hne : cs ≠ [])
    (hd : allDigits cs = true) : pyIntNoWS cs = some ((digitsVal cs : Int)) := by
  cases cs with
  | nil => exact absurd rfl hne
  | cons c rest =>
    have hc : isDig c = true := by
      have := List.all_eq_true.mp hd c (List.mem_cons_self c rest)
      exact this
    have hplus : c ≠ '+' := by rintro rfl; simp [isDig] at hc
    have hminus : c ≠ '-' := by rintro rfl; simp [isDig] at hc
    simp [pyIntNoWS, hplus, hminus, hd]

/-- Python `int` succeeds on any nonempty all-digit string and returns its
base-10 value. -/
theorem pyIntAux_digits {cs : List Char} (hne : cs ≠ [])
    (hd : allDigits cs = true) : pyIntAux cs = some ((digitsVal cs : Int)) := by
  unfold pyIntAux
  rw [stripSpaces_digits hd]
  exact pyIntNoWS_digits hne hd

/-- With a populated `FIELDLIST` and enough fuel, the count-mode loop writes
exactly the quota. -/
theorem write2file_count_go_some (fl : List String) :
    ∀ fuel q : Nat, q / 100000 < fuel →
      write2file_count_go (some fl) fuel q = .ok q := by
  intro fuel
  induction fuel with
  | zero => intro q h; omega
  | succ f ih =>
    intro q h
    by_cases h0 : q = 0
    · simp [write2file_count_go, h0]
    · by_cases h1 : 100000 < q
      · have hrec : (q - 100000) / 100000 < f := by omega
        simp [write2file_count_go, h0, h1, writerE, ih _ hrec]
        omega
      · simp [write2file_count_go, h0, h1, writerE]

/-- `write2file` in count mode with the schema attribute set writes exactly
`max_per_file` rows. -/
theorem write2file_count_some (fl : List String) (q : Nat) :
    write2file_count (some fl) q = .ok q :=
  write2file_count_go_some fl (q / 100000 + 1) q (by omega)

/-- `write2file` in count mode with `FIELDLIST` unset raises on any nonzero
quota. -/
theorem write2file_count_none {q : Nat} (h : 1 ≤ q) :
    write2file_count none q = .error .attributeError := by
  have h0 : ¬(q = 0) := by omega
  by_cases h1 : 100000 < q <;>
    simp [write2file_count, write2file_count_go, h0, h1, writerE]

/-- The sequential count-mode generate loop writes `files * quota` rows. -/
theorem generate_count_go_eq (fl : List String) (q : Nat) :
    ∀ (L : List Nat) (acc : Nat),
      generate_count_go fl q L acc = .ok (acc + L.length * q) := by
  intro L
  induction L with
  | nil => intro acc; simp [generate_count_go]
  | cons x xs ih =>
    intro acc
    simp [generate_count_go, write2file_count_some, ih]
    ring

/-- Closed form of the count-mode total: every file writes the floor quota. -/
theorem generate_count_total_eq (fl : List String) (records num_files : Nat) :
    generate_count_total fl records num_files
      = .ok (num_files * (records / num_files)) := by
  simp [generate_count_total, generate_count_go_eq]

/-- The size-mode loop never stops below its quota: a `some (.ok n)` result
has `n ≥ max_per_file`. -/
theorem write2file_size_ge (F : Option (List String)) (batch : Nat → Nat)
    (q : Nat) : ∀ (fuel k fsize n : Nat),
      write2file_size F batch q fuel k fsize = some (.ok n) → q ≤ n := by
  intro fuel
  induction fuel with
  | zero => intro k fsize n h; simp [write2file_size] at h
  | succ f ih =>
    intro k fsize n h
    rw [write2file_size] at h
    cases hw : writerE F 100000 with
    | error e => rw [hw] at h; simp at h
    | ok u =>
      rw [hw] at h
      simp only at h
      by_cases hq : q ≤ fsize + batch k
      · rw [if_pos hq] at h
        simp at h
        omega
      · rw [if_neg hq] at h
        exact ih _ _ _ h

/-- The size-mode generate loop accumulates at least `quota` bytes per file. -/
theorem generate_size_go_ge (fl : List String) (q fuel : Nat)
    (batches : Nat → Nat → Nat) :
    ∀ (L : List Nat) (acc n : Nat),
      generate_size_go fl q fuel batches L acc = some (.ok n) →
        acc + L.length * q ≤ n := by
  intro L
  induction L with
  | nil =>
    intro acc n h
    simp [generate_size_go] at h
    simp [h]
  | cons x xs ih =>
    intro acc n h
    rw [generate_size_go] at h
    cases hw : write2file_size (some fl) (batches x) q fuel 0 0 with
    | none => rw [hw] at h; simp at h
    | some r =>
      rw [hw] at h
      cases r with
      | error e => simp at h
      | ok b =>
        simp only at h
        have hb : q ≤ b := write2file_size_ge _ _ _ _ _ _ _ hw
        have hrest := ih _ _ h
        have hmul : (x :: xs).length * q = xs.length * q + q := by
          simp [List.length_cons]
          ring
        omega

/-- Digit-count bound: a natural below `10 ^ k` has at most `k` digits. -/
theorem digits_length_le_of_lt {m k : Nat} (h : m < 10 ^ k) :
    (Nat.digits 10 m).length ≤ k := by
  rcases Nat.eq_zero_or_pos m with hm | hm
  · simp [hm]
  · rw [Nat.digits_len 10 m (by norm_num) (by omega)]
    have := (Nat.lt_pow_iff_log_lt (by norm_num : 1 < 10) (by omega : m ≠ 0)).mp h
    omega

/-! ### Claim theorems -/

/-- C2, counterexample: with `records = 2500` and `files = 3` the code writes
`3 * int(2500 / 3) = 2499` rows in total, not the requested 2500 — the claim
that the sum of rows written always equals the requested record count is
false. -/
theorem C2_counterexample :
    generate_count_total ["INT"] 2500 3 = .ok 2499 ∧ (2499 : Nat) ≠ 2500 := by
  constructor
  · rw [generate_count_total_eq]
  · decide

/-- C2, amended: in count mode each of the `num_files` files writes exactly
the floor quota `int(records / num_files)`, so the total written is
`records - records % num_files`; it equals the requested count exactly iff
`num_files` divides `records` (the division remainder is silently dropped). -/
theorem C2_amended (fl : List String) (records num_files : Nat)
    (_hf : 1 ≤ num_files) :
    generate_count_total fl records num_files
      = .ok (records - records % num_files) ∧
    (num_files ∣ records →
      generate_count_total fl records num_files = .ok records) := by
  have he := generate_count_total_eq fl records num_files
  have hd := Nat.div_add_mod records num_files
  constructor
  · rw [he]
    congr 1
    omega
  · intro hdvd
    rw [he]
    congr 1
    exact Nat.mul_div_cancel' hdvd

/-- C2, witness for the amended theorem at `records = 1000`, `files = 4`. -/
theorem C2_witness :
    generate_count_total ["INT"] 1000 4 = .ok (1000 - 1000 % 4) :=
  (C2_amended ["INT"] 1000 4 (by decide)).1

/-- C3 (confirmed): in record-count mode (`args.SIZE` absent) construction of
the generator always fails with an `AttributeError` before any generation
starts: `check_storage` unconditionally reads `self.size`, which only the
size-mode branch of `__init__` ever assigns. -/
theorem C3_init_count_mode_fails (args : Args) (rand : Nat → Nat)
    (free_space : ℤ) (writable : Bool) (h : args.SIZE = none) :
    initDataGen args rand free_space writable = .error .attributeError := by
  unfold initDataGen
  rw [h]
  rfl

/-- C3, witness: the concrete count-mode configuration `argsCountEx` fails. -/
theorem C3_witness :
    initDataGen argsCountEx zeroOracle 1000000000 true = .error .attributeError :=
  C3_init_count_mode_fails argsCountEx zeroOracle 1000000000 true rfl

/-- C4, counterexample: with resolved size 1000010 and 3 files, each file's
quota is `int(1000010 / 3) = 333336`; a run whose every batch appends 333336
bytes (realizable: 100000 one-column TINYINT rows — 66664 three-byte and
33336 four-byte lines) stops every file at exactly its quota, for a total of
1000008 bytes — LESS than the requested size, so the claim that the total is
never less than the requested size is false. -/
theorem C4_counterexample :
    1000010 / 3 = 333336 ∧
    generate_size_total ["TINYINT"] 1000010 3 5 constBatch333336
      = some (.ok 1000008) ∧
    1000008 < 1000010 := by
  refine ⟨by norm_num, rfl, by norm_num⟩

/-- C4, amended: in size mode every terminating run writes at least
`num_files * int(size / num_files)` bytes in total — each file appends whole
batches until its on-disk size reaches the floor quota — which is at least
the requested size whenever `num_files` divides `size` (in particular for a
single file), but in general only at least `size - (size % num_files)`. -/
theorem C4_amended (fl : List String) (size num_files fuel : Nat)
    (batches : Nat → Nat → Nat) (n : Nat)
    (h : generate_size_total fl size num_files fuel batches = some (.ok n)) :
    num_files * (size / num_files) ≤ n ∧ (num_files ∣ size → size ≤ n) := by
  have hg := generate_size_go_ge fl (size / num_files) fuel batches
    (List.range num_files) 0 n h
  simp [List.length_range] at hg
  constructor
  · exact hg
  · intro hdvd
    have hc : size / num_files * num_files = size := Nat.div_mul_cancel hdvd
    calc size = size / num_files * num_files := hc.symm
    _ = num_files * (size / num_files) := Nat.mul_comm _ _
    _ ≤ n := hg

/-- C4, witness for the amended theorem: a concrete terminating size-mode
run (size 20, 2 files, all batches 333336 bytes) meets both bounds. -/
theorem C4_witness :
    2 * (20 / 2) ≤ 666672 ∧ 20 ≤ 666672 :=
  ⟨(C4_amended ["INT"] 20 2 3 constBatch333336 666672 rfl).1,
   (C4_amended ["INT"] 20 2 3 constBatch333336 666672 rfl).2 (by decide)⟩

/-- C5 (code bug): updating with `DECIMAL_PRECISION` EQUAL to the resolved
`DECIMAL_SCALE` is accepted — the guard on source line 136 tests `v <
CONSTRAINTS['DECIMAL_SCALE']` although its own error message (and the spec)
says `less than or equal to` must raise.  With the default scale 2, the
override `{"DECIMAL_PRECISION": "2"}` succeeds and leaves precision = scale. -/
theorem C5_precision_eq_scale_accepted :
    update_constraints defaultConstraints [("DECIMAL_PRECISION", "2")]
      = .ok { defaultConstraints with DECIMAL_PRECISION := 2 } ∧
    defaultConstraints.DECIMAL_SCALE = 2 := ⟨rfl, rfl⟩

/-- C7 (confirmed): when `--files` is not requested, the resolved file count
is 1 whenever the target is at most the per-file ceiling (100000 records in
count mode, `SIZE_PER_FILE` = 10 MiB in size mode) and `floor(target /
ceiling)` otherwise; it is always at least 1; and the per-file quota is the
floor `target / num_files` in the active unit. -/
theorem C7_num_files_resolution (num_records size : Nat) :
    (num_records ≤ 100000 → resolvedNumFiles none false num_records size = 1) ∧
    (100000 < num_records →
      resolvedNumFiles none false num_records size = num_records / 100000) ∧
    (size ≤ SIZE_PER_FILE → resolvedNumFiles none true num_records size = 1) ∧
    (SIZE_PER_FILE < size →
      resolvedNumFiles none true num_records size = size / SIZE_PER_FILE) ∧
    (∀ us : Bool, 1 ≤ resolvedNumFiles none us num_records size) ∧
    (∀ (us : Bool) (nf : Nat),
      maxPerFile us size num_records nf = (if us then size else num_records) / nf) := by
  refine ⟨?_, ?_, ?_, ?_, ?_, ?_⟩
  · intro h
    simp [resolvedNumFiles, autoNumFiles]
    omega
  · intro h
    simp [resolvedNumFiles, autoNumFiles, h]
  · intro h
    simp [resolvedNumFiles, autoNumFiles, SIZE_PER_FILE] at h ⊢
    omega
  · intro h
    simp [resolvedNumFiles, autoNumFiles, SIZE_PER_FILE] at h ⊢
    omega
  · intro us
    cases us <;> simp [resolvedNumFiles, autoNumFiles, SIZE_PER_FILE] <;> split <;> omega
  · intro us nf
    cases us <;> simp [maxPerFile]

/-- C7, witness: concrete instances of the resolution rules
(2500 records → 1 file; 250000 records → 2 files; 1 MiB → 1 file;
30 MiB + 10 → 3 files; quota for 2500 records over 3 files is 833). -/
theorem C7_witness :
    resolvedNumFiles none false 2500 0 = 1 ∧
    resolvedNumFiles none false 250000 0 = 250000 / 100000 ∧
    resolvedNumFiles none true 1000 1048580 = 1 ∧
    resolvedNumFiles none true 1000 31457290 = 31457290 / SIZE_PER_FILE ∧
    1 ≤ resolvedNumFiles none false 2500 0 ∧
    maxPerFile false 0 2500 3 = (if false then 0 else 2500) / 3 := by
  refine ⟨(C7_num_files_resolution 2500 0).1 (by norm_num),
          (C7_num_files_resolution 250000 0).2.1 (by norm_num),
          (C7_num_files_resolution 1000 1048580).2.2.1 (by norm_num [SIZE_PER_FILE]),
          (C7_num_files_resolution 1000 31457290).2.2.2.1 (by norm_num [SIZE_PER_FILE]),
          (C7_num_files_resolution 2500 0).2.2.2.2.1 false,
          (C7_num_files_resolution 2500 0).2.2.2.2.2 false 3⟩

/-- C8, counterexample: the TIMESTAMP offset draws days, hours, minutes and
seconds independently, so the draw `(d, h, m, s) = (DAYS_AGO, 23, 59, 59)`
(valid for the default `DAYS_AGO = 1095`) produces a timestamp 23:59:59
EARLIER than `now - DAYS_AGO days` — the claimed lower bound is violated. -/
theorem C8_counterexample :
    defaultConstraints.DAYS_AGO = 1095 ∧
    validTimestampDraw 1095 1095 23 59 59 ∧
    timestampValue 1000000000 1095 23 59 59 < 1000000000 - 1095 * 86400 := by
  refine ⟨rfl, by decide, ?_⟩
  norm_num [timestampValue, timestampOffset]

/-- C8, amended: every generated TIMESTAMP lies between
`now - (DAYS_AGO days + 23:59:59)` and `now - (1 day + 01:01:01)` inclusive
(in particular it is always strictly in the past, but it may precede
`now - DAYS_AGO days` by up to 23:59:59). -/
theorem C8_amended (now : ℤ) (days_ago d h m s : Nat)
    (hv : validTimestampDraw days_ago d h m s) :
    now - (days_ago * 86400 + 86399 : Nat) ≤ timestampValue now d h m s ∧
    timestampValue now d h m s ≤ now - 90061 := by
  obtain ⟨h1, h2, h3, h4, h5, h6, h7, h8⟩ := hv
  unfold timestampValue timestampOffset
  constructor
  · have hd : d * 86400 ≤ days_ago * 86400 := Nat.mul_le_mul_right 86400 h2
    have : d * 86400 + h * 3600 + m * 60 + s ≤ days_ago * 86400 + 86399 := by omega
    omega
  · have : 90061 ≤ d * 86400 + h * 3600 + m * 60 + s := by omega
    omega

/-- C8, witness for the amended theorem at a concrete draw. -/
theorem C8_witness :
    (1000000000 : ℤ) - ((30 * 86400 + 86399 : Nat) : ℤ)
        ≤ timestampValue 1000000000 1 1 1 1 ∧
    timestampValue 1000000000 1 1 1 1 ≤ (1000000000 : ℤ) - 90061 :=
  C8_amended 1000000000 30 1 1 1 1 (by decide)

/-- C1 (confirmed): every generator the program can actually construct is in
size mode (count-mode construction aborts in `__init__`, see C3) and carries
`FIELDLIST = none` — no code path assigns that attribute, the schema lives
in `field_list`.  Consequently every `write2file` call such a generator
makes fails with `AttributeError` while building the first row of its first
batch, and no call ever writes a row. -/
theorem C1_write2file_always_fails (args : Args) (rand : Nat → Nat)
    (free_space : ℤ) (writable : Bool) (st : DGState)
    (h : initDataGen args rand free_space writable = .ok st) :
    st.use_size = true ∧ st.FIELDLIST = none ∧
    (∀ (batch : Nat → Nat) (q fuel : Nat), 1 ≤ fuel →
      write2file st.FIELDLIST st.use_size batch q fuel
        = some (.error .attributeError)) ∧
    (∀ (batch : Nat → Nat) (q fuel r : Nat),
      write2file st.FIELDLIST st.use_size batch q fuel ≠ some (.ok r)) := by
  unfold initDataGen at h
  cases hr : resolveSize args.SIZE with
  | error e => rw [hr] at h; exact absurd h (by simp)
  | ok sizeInfo =>
    rw [hr] at h
    cases sizeInfo with
    | none => simp [check_storage] at h
    | some v =>
      simp only [check_storage] at h
      by_cases hfs : free_space < v
      · rw [if_pos hfs] at h; simp at h
      · rw [if_neg hfs] at h
        cases writable with
        | false => simp at h
        | true =>
          simp only [if_true] at h
          have hst := (Except.ok.injEq _ _).mp h.symm
          subst hst
          refine ⟨rfl, rfl, ?_, ?_⟩
          · intro batch q fuel hfuel
            cases fuel with
            | zero => omega
            | succ f => rfl
          · intro batch q fuel r
            cases fuel with
            | zero => simp [write2file, write2file_size]
            | succ f => simp [write2file, write2file_size, writerE]

/-- C1, witness: the size-mode state built from `argsSizeEx` has `FIELDLIST`
unset and its `write2file` calls fail immediately. -/
theorem C1_witness :
    stSizeEx.use_size = true ∧ stSizeEx.FIELDLIST = none ∧
    write2file stSizeEx.FIELDLIST stSizeEx.use_size zeroOracle 1020 1
      = some (.error .attributeError) := by
  have h := C1_write2file_always_fails argsSizeEx zeroOracle 1000000000 true
    stSizeEx rfl
  exact ⟨h.1, h.2.1, h.2.2.1 zeroOracle 1020 1 (by decide)⟩

/-- Appending a non-digit character to a digit string makes Python `int`
fail. -/
theorem pyIntAux_append_nondigit {ds : List Char} {u : Char} (hne : ds ≠ [])
    (hd : allDigits ds = true) (hu : isDig u = false) (hs : isPySpace u = false) :
    pyIntAux (ds ++ [u]) = none := by
  unfold pyIntAux
  rw [stripSpaces_digits_append hne hd hs]
  cases ds with
  | nil => exact absurd rfl hne
  | cons c rest =>
    have hc : isDig c = true := List.all_eq_true.mp hd c (List.mem_cons_self c rest)
    have hplus : c ≠ '+' := by rintro rfl; simp [isDig] at hc
    have hminus : c ≠ '-' := by rintro rfl; simp [isDig] at hc
    have hall : allDigits (c :: (rest ++ [u])) = false := by
      unfold allDigits
      rw [List.all_cons, List.all_append]
      simp [hu]
    rw [List.cons_append]
    simp only [pyIntNoWS, if_neg hplus, if_neg hminus, hall]
    simp

/-- C6 (confirmed up to the float-exactness bound): size-string resolution.
(a) A nonempty all-digit string whose value is at most `2^51` resolves to
its numeric value in bytes, rounded to the nearest multiple of 10.  (b)
Digits followed by one of `K/M/G/T` in either case, with the multiplied
value at most `2^51`, resolve to the value times `1024^{1,2,3,4}`, rounded
to the nearest multiple of 10.  (c) A string that `int` rejects (after
whitespace stripping) and whose last character is not a valid unit — or
whose prefix before the last character `int` also rejects — makes parsing
fail with an error, and no size is resolved (those paths never reach the
rounding).  The `≤ 2^51` bound marks the region where the source's
float-mediated `int(round(n, -1))` provably coincides with exact nearest-10
rounding (see `roundTo10`); above `2^53` the float coercion rounds
inexactly. -/
theorem C6_parse_size :
    (∀ cs : List Char, cs ≠ [] → allDigits cs = true → digitsVal cs ≤ 2 ^ 51 →
        parseSizeL cs = .ok (roundTo10 (digitsVal cs))) ∧
    (∀ (ds : List Char) (u : Char) (e : Nat), ds ≠ [] → allDigits ds = true →
        (u, e) ∈ [('K', 1), ('k', 1), ('M', 2), ('m', 2),
                  ('G', 3), ('g', 3), ('T', 4), ('t', 4)] →
        digitsVal ds * 1024 ^ e ≤ 2 ^ 51 →
        parseSizeL (ds ++ [u]) = .ok (roundTo10 ((digitsVal ds : Int) * 1024 ^ e))) ∧
    (∀ cs : List Char, pyIntAux cs = none →
        (pyIntAux cs.dropLast = none ∨
          ∀ c, cs.getLast? = some c → c.toUpper ∉ (['K', 'M', 'G', 'T'] : List Char)) →
        ∃ er, parseSizeL cs = .error er) := by
  refine ⟨?_, ?_, ?_⟩
  · intro cs hne hd _hbound
    unfold parseSizeL
    rw [pyIntAux_digits hne hd]
  · intro ds u e hne hd hmem _hbound
    have hprefix : pyIntAux ((ds ++ [u]).dropLast) = some ((digitsVal ds : Int)) := by
      rw [List.dropLast_concat]
      exact pyIntAux_digits hne hd
    have hlast : (ds ++ [u]).getLast? = some u := List.getLast?_concat ds
    simp only [List.mem_cons, List.not_mem_nil, or_false, Prod.mk.injEq] at hmem
    rcases hmem with hm | hm | hm | hm | hm | hm | hm | hm <;>
      obtain ⟨rfl, rfl⟩ := hm <;>
      · unfold parseSizeL
        rw [pyIntAux_append_nondigit hne hd (by decide) (by decide), hprefix, hlast]
        exact congrArg Except.ok (congrArg roundTo10 (by norm_num))
  · intro cs hwhole hcase
    unfold parseSizeL
    rw [hwhole]
    cases hdl : pyIntAux cs.dropLast with
    | none => exact ⟨_, rfl⟩
    | some m =>
      rcases hcase with hnone | hunit
      · rw [hnone] at hdl; cases hdl
      · cases hlast : cs.getLast? with
        | none => exact ⟨_, rfl⟩
        | some c =>
          have hcnot := hunit c hlast
          simp only [List.mem_cons, List.mem_singleton, not_or] at hcnot
          obtain ⟨hK, hM, hG, hT⟩ := hcnot
          split <;> first
            | exact ⟨_, rfl⟩
            | simp_all

/-- C6, witness: concrete instances — `"15"` resolves to 20 bytes, `"1m"`
resolves to `1024^2` rounded (1048580), `"12X"` fails with an error. -/
theorem C6_witness :
    parseSizeL ['1', '5'] = .ok (roundTo10 (digitsVal ['1', '5'])) ∧
    parseSizeL (['1'] ++ ['m'])
      = .ok (roundTo10 ((digitsVal ['1'] : Int) * 1024 ^ 2)) ∧
    (∃ er, parseSizeL ['1', '2', 'X'] = .error er) := by
  refine ⟨C6_parse_size.1 ['1', '5'] (by decide) (by decide) (by decide),
          C6_parse_size.2.1 ['1'] 'm' 2 (by decide) (by decide) (by decide) (by decide),
          C6_parse_size.2.2 ['1', '2', 'X'] (by decide) ?_⟩
  right
  intro c hc
  have hx : (['1', '2', 'X'] : List Char).getLast? = some 'X' := rfl
  rw [hx] at hc
  injection hc with h
  rw [← h]
  decide

/-- C9 (confirmed): assuming `DECIMAL_PRECISION > DECIMAL_SCALE ≥ 0`, every
value `x` the `uniform(10^(P-S-1), 10^(P-S) - 1)` call can return, formatted
by `format(x, '.Sf')`, prints exactly `S` digits after the decimal point and
at most `P` digits in total (the scaled integer lies in
`[10^(P-1), 10^P - 1]`, so the integer part has exactly `P - S` digits). -/
theorem C9_decimal_digits (P S : Nat) (x : ℚ) (hPS : S < P)
    (hlo : (DECIMAL_lower P S : ℚ) ≤ x) (hhi : x ≤ (DECIMAL_upper P S : ℚ)) :
    (decimalFracDigits S x).length = S ∧
    (decimalIntDigits S x).length + (decimalFracDigits S x).length ≤ P := by
  have hfrac : (decimalFracDigits S x).length = S := by
    simp [decimalFracDigits]
  refine ⟨hfrac, ?_⟩
  rw [hfrac]
  have hpowS : (0 : ℚ) < (10 : ℚ) ^ S := by positivity
  -- the scaled value is nonnegative
  have hx0 : (0 : ℚ) ≤ x := le_trans (by positivity) hlo
  have hz0 : (0 : ℚ) ≤ x * (10 : ℚ) ^ S := mul_nonneg hx0 hpowS.le
  have hn0 : 0 ≤ decimalScaled S x := by
    rw [decimalScaled, round_eq]
    have : (0 : ℚ) ≤ x * (10 : ℚ) ^ S + 1 / 2 := by linarith
    exact_mod_cast Int.le_floor.mpr (by exact_mod_cast this)
  -- the scaled value is below 10^P
  have hcast : ((DECIMAL_upper P S : Nat) : ℚ) = (10 : ℚ) ^ (P - S) - 1 := by
    rw [DECIMAL_upper]
    have h1 : (1 : Nat) ≤ 10 ^ (P - S) := Nat.one_le_pow _ _ (by norm_num)
    push_cast [h1]
    ring
  have hzle : x * (10 : ℚ) ^ S ≤ (10 : ℚ) ^ P - (10 : ℚ) ^ S := by
    have hmul := mul_le_mul_of_nonneg_right hhi hpowS.le
    rw [hcast] at hmul
    have hPsum : (10 : ℚ) ^ (P - S) * (10 : ℚ) ^ S = (10 : ℚ) ^ P := by
      rw [← pow_add]
      congr 1
      omega
    calc x * (10 : ℚ) ^ S ≤ ((10 : ℚ) ^ (P - S) - 1) * (10 : ℚ) ^ S := hmul
    _ = (10 : ℚ) ^ (P - S) * (10 : ℚ) ^ S - (10 : ℚ) ^ S := by ring
    _ = (10 : ℚ) ^ P - (10 : ℚ) ^ S := by rw [hPsum]
  have hnP : decimalScaled S x < ((10 ^ P : Nat) : ℤ) := by
    rw [decimalScaled, round_eq]
    have hlt : x * (10 : ℚ) ^ S + 1 / 2 < (((10 ^ P : Nat) : ℤ) : ℚ) := by
      push_cast
      have h1S : (1 : ℚ) ≤ (10 : ℚ) ^ S := one_le_pow₀ (by norm_num)
      nlinarith [hpowS]
    exact Int.floor_lt.mpr hlt
  -- hence the printed integer part has at most P - S digits
  have htoNat : (decimalScaled S x).toNat < 10 ^ P := by omega
  have hdivlt : (decimalScaled S x).toNat / 10 ^ S < 10 ^ (P - S) := by
    rw [Nat.div_lt_iff_lt_mul (Nat.pos_pow_of_pos S (by norm_num))]
    calc (decimalScaled S x).toNat < 10 ^ P := htoNat
    _ = 10 ^ (P - S) * 10 ^ S := by rw [← pow_add]; congr 1; omega
  have hlen : (decimalIntDigits S x).length ≤ P - S :=
    digits_length_le_of_lt hdivlt
  omega

/-- C9, witness at precision 5, scale 2, sampled value 500 (in `[100, 999]`):
two digits after the point, at most five digits in total. -/
theorem C9_witness :
    (decimalFracDigits 2 (500 : ℚ)).length = 2 ∧
    (decimalIntDigits 2 (500 : ℚ)).length + (decimalFracDigits 2 (500 : ℚ)).length ≤ 5 :=
  C9_decimal_digits 5 2 500 (by norm_num)
    (by norm_num [DECIMAL_lower]) (by norm_num [DECIMAL_upper])

/-- A one-entry override mapping is processed by `applyOverride` alone. -/
theorem update_constraints_singleton (c : Constraints) (k s : String) :
    update_constraints c [(k, s)] = applyOverride c (k, s) := by
  unfold update_constraints sortDescByKey
  simp only [List.foldr, insertDescBy, List.foldlM]
  cases applyOverride c (k, s) <;> rfl

/-- C10 (confirmed): `update_constraints` cross-validates only when the
max-side key itself appears in the override mapping.  An override supplying
only `DECIMAL_SCALE`, `VARCHAR_MIN` or `TEXT_MIN` is stored unconditionally
— whatever integer value is supplied — so a successful update can leave
`DECIMAL_SCALE > DECIMAL_PRECISION`, `VARCHAR_MIN > VARCHAR_MAX` or
`TEXT_MIN > TEXT_MAX`; and an unknown (integer-valued) constraint name is
stored in the mapping without any error. -/
theorem C10_only_max_side_checked :
    (∀ (s : String) (n : Int), pyInt s = some n →
        update_constraints defaultConstraints [("DECIMAL_SCALE", s)]
          = .ok { defaultConstraints with DECIMAL_SCALE := n }) ∧
    (∀ (s : String) (n : Int), pyInt s = some n →
        update_constraints defaultConstraints [("VARCHAR_MIN", s)]
          = .ok { defaultConstraints with VARCHAR_MIN := n }) ∧
    (∀ (s : String) (n : Int), pyInt s = some n →
        update_constraints defaultConstraints [("TEXT_MIN", s)]
          = .ok { defaultConstraints with TEXT_MIN := n }) ∧
    (∀ n : Int, defaultConstraints.DECIMAL_PRECISION < n →
        ({ defaultConstraints with DECIMAL_SCALE := n }).DECIMAL_PRECISION
          < ({ defaultConstraints with DECIMAL_SCALE := n }).DECIMAL_SCALE) ∧
    (∀ (k s : String) (n : Int), pyInt s = some n →
        strUpper k ≠ "DATE_FORMAT" → strUpper k ≠ "TIMESTAMP_FORMAT" →
        strUpper k ≠ "DECIMAL_PRECISION" → strUpper k ≠ "TEXT_MAX" →
        strUpper k ≠ "VARCHAR_MAX" → strUpper k ≠ "DECIMAL_SCALE" →
        strUpper k ≠ "VARCHAR_MIN" → strUpper k ≠ "TEXT_MIN" →
        strUpper k ≠ "DAYS_AGO" →
        update_constraints defaultConstraints [(k, s)]
          = .ok { defaultConstraints with
                    extra := (strUpper k, n) :: defaultConstraints.extra }) := by
  refine ⟨?_, ?_, ?_, ?_, ?_⟩
  · intro s n hpy
    rw [update_constraints_singleton]
    have hred : applyOverride defaultConstraints ("DECIMAL_SCALE", s)
        = match pyInt s with
          | none => .error ("DECIMAL_SCALE" ++ " must be an integer")
          | some v => .ok { defaultConstraints with DECIMAL_SCALE := v } := rfl
    rw [hred, hpy]
  · intro s n hpy
    rw [update_constraints_singleton]
    have hred : applyOverride defaultConstraints ("VARCHAR_MIN", s)
        = match pyInt s with
          | none => .error ("VARCHAR_MIN" ++ " must be an integer")
          | some v => .ok { defaultConstraints with VARCHAR_MIN := v } := rfl
    rw [hred, hpy]
  · intro s n hpy
    rw [update_constraints_singleton]
    have hred : applyOverride defaultConstraints ("TEXT_MIN", s)
        = match pyInt s with
          | none => .error ("TEXT_MIN" ++ " must be an integer")
          | some v => .ok { defaultConstraints with TEXT_MIN := v } := rfl
    rw [hred, hpy]
  · intro n hn
    simpa using hn
  · intro k s n hpy h1 h2 h3 h4 h5 h6 h7 h8 h9
    rw [update_constraints_singleton]
    simp only [applyOverride, hpy, if_neg h1, if_neg h2, if_neg h3, if_neg h4,
      if_neg h5, if_neg h6, if_neg h7, if_neg h8, if_neg h9]

/-- C10, witness: `{"DECIMAL_SCALE": "999"}` is accepted and leaves the
resolved scale above the precision; the unknown name `"FOO"` with value
`"7"` is stored without error. -/
theorem C10_witness :
    update_constraints defaultConstraints [("DECIMAL_SCALE", "999")]
      = .ok { defaultConstraints with DECIMAL_SCALE := 999 } ∧
    ({ defaultConstraints with DECIMAL_SCALE := (999 : Int) }).DECIMAL_PRECISION
      < ({ defaultConstraints with DECIMAL_SCALE := (999 : Int) }).DECIMAL_SCALE ∧
    update_constraints defaultConstraints [("FOO", "7")]
      = .ok { defaultConstraints with
                extra := (strUpper "FOO", 7) :: defaultConstraints.extra } :=
  ⟨C10_only_max_side_checked.1 "999" 999 rfl,
   C10_only_max_side_checked.2.2.2.1 999 (by decide),
   C10_only_max_side_checked.2.2.2.2 "FOO" "7" 7 rfl (by decide) (by decide)
     (by decide) (by decide) (by decide) (by decide) (by decide) (by decide)
     (by decide)⟩
